import Mathlib

/-!
The CA front end of `pkg/server/grpc/server.go`

A shallow embedding of the gRPC server of the Istio CA: the CSR handler
`HandleCSR`, the constructor `New`, the per-handshake certificate callback
installed by `createTLSServerOption`, the refresh `applyServerCertificate`
and the freshness test `shouldRefresh`.

Conventions of the embedding.

* A Go result `(v, err)` is a pair whose second component is `Option GoError`
  (`none` is the nil error); a Go pointer result is an `Option` (`none` is nil).
* The collaborators the file calls but does not define (`ca.GenCSR`, the `Sign`
  method of the `ca.CertificateAuthority` held by the server, `tls.X509KeyPair`)
  are parameters.  `GenCSR` and `Sign` may be stateful (randomness, serial
  numbers, a remote authority); their state is the `backend` component of
  `World`.  Every call to one of them is appended to `World.calls`.
* `time.Now()` is the parameter `now` of the functions that read the clock.
* `&cert` allocates a new object: `World.nextAddr` is the next unused address.
-/

namespace Grpc

/-- Go `[]byte`. -/
abbrev Bytes := List Nat

/-- A non-nil Go `error` value, identified by its message. -/
abbrev GoError := String

/-- An instant of `time.Time`, in nanoseconds on the wall clock. -/
abbrev Time := Int

/-- A `time.Duration`: a signed number of nanoseconds. -/
abbrev Duration := Int

/-- The constant `time.Minute`. -/
def Minute : Duration := 60 * 1000000000

/-- Method `Time.Add`. -/
def Time.Add (t : Time) (d : Duration) : Time := t + d

/-- Method `Time.Before`: strictly earlier. -/
def Time.Before (t u : Time) : Bool := decide (t < u)

/-- The constant `certExpirationBuffer = time.Minute`. -/
def certExpirationBuffer : Duration := Minute

/-- The fields of `x509.Certificate` the server reads: the validity window. -/
structure X509Certificate where
  NotBefore : Time
  NotAfter : Time
deriving DecidableEq, Repr

/-- The struct `tls.Certificate`: the certificate chain, the private key and the
parsed leaf (`Leaf` is a pointer, `none` when nil). -/
structure Certificate where
  Certificate : List Bytes
  PrivateKey : Bytes
  Leaf : Option X509Certificate
deriving DecidableEq, Repr

/-- A non-nil `*tls.Certificate`: the address of the object and the object
stored there (the server never writes through such a pointer). -/
structure CertificatePtr where
  addr : Nat
  obj : Certificate
deriving DecidableEq, Repr

/-- Modelled from the spec: the struct `ca.CertOptions` of package
`istio.io/auth/pkg/pki/ca` is not among the sources; the two fields the server
sets are the subject hostname and the key size. -/
structure CertOptions where
  Host : String
  RSAKeySize : Int
deriving DecidableEq, Repr

/-- Modelled from the spec: the message `pb.Request` of the generated package
`istio.io/auth/proto` is not among the sources; it carries the raw CSR bytes. -/
structure Request where
  CsrPem : Bytes
deriving DecidableEq, Repr

/-- Modelled from the spec: the message `pb.Response` of the generated package
`istio.io/auth/proto` is not among the sources; it carries the approval flag and
the signed certificate chain. -/
structure Response where
  IsApproved : Bool
  SignedCertChain : Bytes
deriving DecidableEq, Repr

/-- A call that leaves the server: to the CSR codec, to the signing backend, to
the key-pair assembly of `crypto/tls`, or to the error log. -/
inductive Call where
  | GenCSR (opts : CertOptions)
  | Sign (csrPEM : Bytes)
  | X509KeyPair (certPEMBlock keyPEMBlock : Bytes)
  | glogError (err : GoError)
deriving DecidableEq, Repr

/-- What lies outside the `Server` struct: the state of the collaborators, the
next address `&cert` will allocate, and the calls made so far, oldest first. -/
structure World (W : Type) where
  backend : W
  nextAddr : Nat
  calls : List Call

/-- Modelled from the spec: the interface `ca.CertificateAuthority` of package
`istio.io/auth/pkg/pki/ca` is not among the sources; the server uses its single
operation `Sign(csrPEM) -> (certPEM, error)`. -/
structure CertificateAuthority (W : Type) where
  Sign : Bytes → W → (Bytes × Option GoError) × W

/-- The package-level functions the server imports: `ca.GenCSR`, returning
`(csrPEM, privPEM, err)`, and `tls.X509KeyPair`, returning `(cert, err)`. -/
structure Imports (W : Type) where
  GenCSR : CertOptions → W → (Bytes × Bytes × Option GoError) × W
  X509KeyPair : Bytes → Bytes → Certificate × Option GoError

/-- The struct `Server`. -/
structure Server (W : Type) where
  ca : CertificateAuthority W
  certificate : Option CertificatePtr
  hostname : String
  port : Int

variable {W : Type}

/-- Method `Server.HandleCSR`.  The request pointer handed over by the RPC layer is
non-nil; the context argument is not used. -/
def HandleCSR (s : Server W) (request : Request) (w : World W) :
    (Option Response × Option GoError) × World W :=
  let r := s.ca.Sign request.CsrPem w.backend
  let cert := r.1.1
  let err := r.1.2
  let w1 : World W :=
    { backend := r.2, nextAddr := w.nextAddr, calls := w.calls ++ [Call.Sign request.CsrPem] }
  match err with
  | some e =>
    ((none, some e),
      { backend := w1.backend, nextAddr := w1.nextAddr, calls := w1.calls ++ [Call.glogError e] })
  | none =>
    let response : Response := { IsApproved := true, SignedCertChain := cert }
    ((some response, none), w1)

/-- Function `New`. -/
def New (ca : CertificateAuthority W) (hostname : String) (port : Int) : Server W :=
  { ca := ca, certificate := none, hostname := hostname, port := port }

/-- Method `Server.applyServerCertificate`. -/
def applyServerCertificate (env : Imports W) (s : Server W) (w : World W) :
    (Option CertificatePtr × Option GoError) × World W :=
  let opts : CertOptions := { Host := s.hostname, RSAKeySize := 2048 }
  let g := env.GenCSR opts w.backend
  let csrPEM := g.1.1
  let privPEM := g.1.2.1
  let w1 : World W :=
    { backend := g.2, nextAddr := w.nextAddr, calls := w.calls ++ [Call.GenCSR opts] }
  match g.1.2.2 with
  | some e => ((none, some e), w1)
  | none =>
    let sg := s.ca.Sign csrPEM w1.backend
    let certPEM := sg.1.1
    let w2 : World W :=
      { backend := sg.2, nextAddr := w1.nextAddr, calls := w1.calls ++ [Call.Sign csrPEM] }
    match sg.1.2 with
    | some e => ((none, some e), w2)
    | none =>
      let k := env.X509KeyPair certPEM privPEM
      let cert := k.1
      let w3 : World W :=
        { backend := w2.backend, nextAddr := w2.nextAddr,
          calls := w2.calls ++ [Call.X509KeyPair certPEM privPEM] }
      match k.2 with
      | some e => ((none, some e), w3)
      | none =>
        ((some { addr := w3.nextAddr, obj := cert }, none),
          { backend := w3.backend, nextAddr := w3.nextAddr + 1, calls := w3.calls })

/-- Function `shouldRefresh`, on the object its (non-nil) argument points to. -/
def shouldRefresh (now : Time) (cert : Certificate) : Bool :=
  match cert.Leaf with
  | none => true
  | some leaf => Time.Before (Time.Add leaf.NotAfter (-certExpirationBuffer)) now

/-- The condition `s.certificate == nil || shouldRefresh(s.certificate)` of the
`GetCertificate` closure, with its short-circuit evaluation. -/
def needsRefresh (now : Time) (s : Server W) : Bool :=
  match s.certificate with
  | none => true
  | some p => shouldRefresh now p.obj

/-- The `GetCertificate` closure that `Server.createTLSServerOption` installs in
the `tls.Config`; its `*tls.ClientHelloInfo` argument is not used.  The result
is the returned pair, the server after the call and the world after the call. -/
def GetCertificate (env : Imports W) (now : Time) (s : Server W) (w : World W) :
    (Option CertificatePtr × Option GoError) × Server W × World W :=
  if needsRefresh now s then
    let r := applyServerCertificate env s w
    let newCert := r.1.1
    match r.1.2 with
    | some e => ((none, some e), s, r.2)
    | none =>
      let s1 : Server W :=
        { ca := s.ca, certificate := newCert, hostname := s.hostname, port := s.port }
      ((s1.certificate, none), s1, r.2)
  else
    ((s.certificate, none), s, w)

/-! ## Concurrent handshakes

The TLS layer runs the `GetCertificate` closure on the goroutine of each
handshake, and the `Server` struct has no lock.  The closure is split at its one
branch: a goroutine first evaluates the condition of line 104 and later, if the
condition was true, runs lines 106 to 112.  A schedule is the list of the
goroutine ids that take the successive steps. -/

/-- Where a goroutine that runs the `GetCertificate` closure stands: it has not yet
evaluated the condition; it found the condition true and has not yet run the
refresh; or it has returned the given pair. -/
inductive Goroutine where
  | start
  | refreshing
  | done (result : Option CertificatePtr × Option GoError)
deriving DecidableEq, Repr

/-- The goroutines in flight, with the server and the world they share. -/
structure Handshakes (W : Type) where
  goroutines : List Goroutine
  server : Server W
  world : World W

/-- One step of goroutine `i`, which reads the clock as `now i`.  From `start` it
evaluates `s.certificate == nil || shouldRefresh(s.certificate)`: when false it
returns the held certificate, when true it moves on to the refresh.  From
`refreshing` it runs `applyServerCertificate`, and either returns the error or
stores the new certificate and returns it. -/
def stepGoroutine (env : Imports W) (now : Nat → Time) (i : Nat) (st : Handshakes W) :
    Handshakes W :=
  match st.goroutines[i]? with
  | none => st
  | some Goroutine.start =>
    if needsRefresh (now i) st.server then
      { goroutines := st.goroutines.set i Goroutine.refreshing,
        server := st.server, world := st.world }
    else
      { goroutines := st.goroutines.set i (Goroutine.done (st.server.certificate, none)),
        server := st.server, world := st.world }
  | some Goroutine.refreshing =>
    let r := applyServerCertificate env st.server st.world
    let newCert := r.1.1
    match r.1.2 with
    | some e =>
      { goroutines := st.goroutines.set i (Goroutine.done (none, some e)),
        server := st.server, world := r.2 }
    | none =>
      let s1 : Server W :=
        { ca := st.server.ca, certificate := newCert, hostname := st.server.hostname,
          port := st.server.port }
      { goroutines := st.goroutines.set i (Goroutine.done (s1.certificate, none)),
        server := s1, world := r.2 }
  | some (Goroutine.done _) => st

/-- Runs a schedule: the goroutines named in the list step one after another. -/
def run (env : Imports W) (now : Nat → Time) (schedule : List Nat) (st : Handshakes W) :
    Handshakes W :=
  schedule.foldl (fun acc i => stepGoroutine env now i acc) st

/-- The state in which `n` handshakes have just called the closure. -/
def spawn (n : Nat) (s : Server W) (w : World W) : Handshakes W :=
  { goroutines := List.replicate n Goroutine.start, server := s, world := w }

/-- The schedule in which goroutines `i`, `i + 1`, ... (`k` of them) run one after
another, each taking both its steps before the next one starts. -/
def serialFrom (i : Nat) : Nat → List Nat
  | 0 => []
  | k + 1 => i :: i :: serialFrom (i + 1) k

/-- The schedule in which `n` calls run one after another, without overlap. -/
def serialSchedule (n : Nat) : List Nat := serialFrom 0 n

/-! ## Collaborators used to instantiate the statements

Concrete signing backends, a CSR codec and two key-pair assemblers.  The state of
the backends is the number of `Sign` calls made so far. -/

/-- A signing backend whose `Sign` always succeeds with the same certificate
bytes. -/
def fixedCA (certPEM : Bytes) : CertificateAuthority Nat :=
  { Sign := fun _ n => ((certPEM, none), n + 1) }

/-- A signing backend whose `Sign` always fails. -/
def failingCA : CertificateAuthority Nat :=
  { Sign := fun _ n => (([], some "sign: authority unavailable"), n + 1) }

/-- A signing backend whose first `Sign` call fails and whose later calls succeed
with the given certificate bytes. -/
def flakyCA (certPEM : Bytes) : CertificateAuthority Nat :=
  { Sign := fun _ n =>
      if n = 0 then (([], some "sign: authority unavailable"), n + 1)
      else ((certPEM, none), n + 1) }

/-- A CSR codec that always succeeds, with CSR bytes `[67, 83, 82]` and key bytes
`[75, 69, 89]`. -/
def stubGenCSR : CertOptions → Nat → (Bytes × Bytes × Option GoError) × Nat :=
  fun _ n => (([67, 83, 82], [75, 69, 89], none), n)

/-- A key-pair assembler that accepts any bytes and leaves `Leaf` nil. -/
def leaflessKeyPair : Bytes → Bytes → Certificate × Option GoError :=
  fun certPEMBlock keyPEMBlock =>
    ({ Certificate := [certPEMBlock], PrivateKey := keyPEMBlock, Leaf := none }, none)

/-- A key-pair assembler that retains the parsed leaf, with the given expiry. -/
def parsingKeyPair (notAfter : Time) : Bytes → Bytes → Certificate × Option GoError :=
  fun certPEMBlock keyPEMBlock =>
    ({ Certificate := [certPEMBlock], PrivateKey := keyPEMBlock,
       Leaf := some { NotBefore := 0, NotAfter := notAfter } }, none)

/-- The imports with the stub codec and the assembler that leaves `Leaf` nil. -/
def leaflessImports : Imports Nat :=
  { GenCSR := stubGenCSR, X509KeyPair := leaflessKeyPair }

/-- The imports with the stub codec and the assembler that retains the leaf. -/
def parsingImports (notAfter : Time) : Imports Nat :=
  { GenCSR := stubGenCSR, X509KeyPair := parsingKeyPair notAfter }

/-- The world before any call: backend state `0`, nothing allocated, no calls. -/
def World.initial : World Nat :=
  { backend := 0, nextAddr := 0, calls := [] }

/-- A certificate object with a parsed leaf that expires at `notAfter`. -/
def certExpiringAt (notAfter : Time) : Certificate :=
  { Certificate := [[79, 76, 68]], PrivateKey := [75, 69, 89],
    Leaf := some { NotBefore := 0, NotAfter := notAfter } }

/-- A server that holds, at address `0`, a certificate expiring at `notAfter`. -/
def serverHolding (ca : CertificateAuthority Nat) (notAfter : Time) : Server Nat :=
  { ca := ca, certificate := some { addr := 0, obj := certExpiringAt notAfter },
    hostname := "istio-ca", port := 8060 }

/-- The world in which address `0` is taken and no call has been made. -/
def World.afterOneAlloc : World Nat :=
  { backend := 0, nextAddr := 1, calls := [] }

/-! ## The CSR handler -/

/-- C1: when the backend signs the request's CSR bytes and returns `X` with a nil
error, `HandleCSR` returns a nil error and the response with `IsApproved = true`
and `SignedCertChain = X`; the only call it makes is `Sign` on exactly the
request's `CsrPem`, and the backend is left in the state `Sign` left it in. -/
theorem HandleCSR_success (s : Server W) (request : Request) (w : World W)
    (X : Bytes) (b : W)
    (hSign : s.ca.Sign request.CsrPem w.backend = ((X, none), b)) :
    (HandleCSR s request w).1 = (some { IsApproved := true, SignedCertChain := X }, none) ∧
    (HandleCSR s request w).2.calls = w.calls ++ [Call.Sign request.CsrPem] ∧
    (HandleCSR s request w).2.backend = b ∧
    (HandleCSR s request w).2.nextAddr = w.nextAddr := by
  simp [HandleCSR, hSign]

/-- C1, instantiated: a backend that returns `[1, 2, 3]`. -/
theorem HandleCSR_success_witness :
    (fixedCA [1, 2, 3]).Sign [9, 9] 0 = (([1, 2, 3], none), 1) ∧
    ((HandleCSR (New (fixedCA [1, 2, 3]) "istio-ca" 8060) { CsrPem := [9, 9] } World.initial).1
        = (some { IsApproved := true, SignedCertChain := [1, 2, 3] }, none) ∧
      (HandleCSR (New (fixedCA [1, 2, 3]) "istio-ca" 8060) { CsrPem := [9, 9] }
          World.initial).2.calls = World.initial.calls ++ [Call.Sign [9, 9]] ∧
      (HandleCSR (New (fixedCA [1, 2, 3]) "istio-ca" 8060) { CsrPem := [9, 9] }
          World.initial).2.backend = 1 ∧
      (HandleCSR (New (fixedCA [1, 2, 3]) "istio-ca" 8060) { CsrPem := [9, 9] }
          World.initial).2.nextAddr = World.initial.nextAddr) :=
  ⟨rfl, HandleCSR_success (New (fixedCA [1, 2, 3]) "istio-ca" 8060) { CsrPem := [9, 9] }
    World.initial [1, 2, 3] 1 rfl⟩

/-- C2: `HandleCSR` returns an error exactly when the backend's `Sign` does; the
error is then the backend's and the response pointer is nil; and a response that
is returned always has `IsApproved = true`. -/
theorem HandleCSR_error_iff (s : Server W) (request : Request) (w : World W) :
    ((HandleCSR s request w).1.2 ≠ none ↔ (s.ca.Sign request.CsrPem w.backend).1.2 ≠ none) ∧
    (HandleCSR s request w).1.2 = (s.ca.Sign request.CsrPem w.backend).1.2 ∧
    ((HandleCSR s request w).1.2 ≠ none → (HandleCSR s request w).1.1 = none) ∧
    (∀ resp, (HandleCSR s request w).1.1 = some resp → resp.IsApproved = true) := by
  unfold HandleCSR
  cases h : (s.ca.Sign request.CsrPem w.backend).1.2 <;> simp [h]

/-- C2, instantiated: a backend whose `Sign` fails. -/
theorem HandleCSR_error_iff_witness :
    (HandleCSR (New failingCA "istio-ca" 8060) { CsrPem := [9, 9] } World.initial).1.2
      = some "sign: authority unavailable" ∧
    (HandleCSR (New failingCA "istio-ca" 8060) { CsrPem := [9, 9] } World.initial).1.1 = none :=
  ⟨(HandleCSR_error_iff (New failingCA "istio-ca" 8060) { CsrPem := [9, 9] } World.initial).2.1,
    (HandleCSR_error_iff (New failingCA "istio-ca" 8060) { CsrPem := [9, 9] }
      World.initial).2.2.1 (by decide)⟩

/-! ## The freshness check -/

/-- C3 (refuted at the boundary): a certificate whose leaf has
`NotAfter - certExpirationBuffer` equal to the current time is not reported
stale. -/
theorem shouldRefresh_boundary_not_stale :
    Time.Add (60000001000 : Time) (-certExpirationBuffer) = (1000 : Time) ∧
    shouldRefresh 1000
      { Certificate := [], PrivateKey := [],
        Leaf := some { NotBefore := 0, NotAfter := 60000001000 } } = false := by
  decide

/-- C3 (amended): `certExpirationBuffer` is one minute, and `shouldRefresh` reports
a certificate stale exactly when it has no parsed leaf or
`leaf.NotAfter - certExpirationBuffer` is strictly before the current time. -/
theorem shouldRefresh_iff (now : Time) (cert : Certificate) :
    certExpirationBuffer = 60 * 1000000000 ∧
    (shouldRefresh now cert = true ↔
      cert.Leaf = none ∨
        ∃ leaf, cert.Leaf = some leaf ∧ leaf.NotAfter - certExpirationBuffer < now) := by
  refine ⟨rfl, ?_⟩
  unfold shouldRefresh
  cases h : cert.Leaf with
  | none => simp
  | some leaf => simp [Time.Before, Time.Add, sub_eq_add_neg]

/-! ## The refresh -/

/-- The refresh when `GenCSR` fails. -/
theorem applyServerCertificate_of_genCSR_error (env : Imports W) (s : Server W) (w : World W)
    (csrPEM privPEM : Bytes) (e : GoError) (b1 : W)
    (hG : env.GenCSR { Host := s.hostname, RSAKeySize := 2048 } w.backend
      = ((csrPEM, privPEM, some e), b1)) :
    applyServerCertificate env s w =
      ((none, some e),
        { backend := b1, nextAddr := w.nextAddr,
          calls := w.calls ++ [Call.GenCSR { Host := s.hostname, RSAKeySize := 2048 }] }) := by
  simp [applyServerCertificate, hG]

/-- The refresh when `GenCSR` succeeds and `Sign` fails. -/
theorem applyServerCertificate_of_sign_error (env : Imports W) (s : Server W) (w : World W)
    (csrPEM privPEM certPEM : Bytes) (e : GoError) (b1 b2 : W)
    (hG : env.GenCSR { Host := s.hostname, RSAKeySize := 2048 } w.backend
      = ((csrPEM, privPEM, none), b1))
    (hS : s.ca.Sign csrPEM b1 = ((certPEM, some e), b2)) :
    applyServerCertificate env s w =
      ((none, some e),
        { backend := b2, nextAddr := w.nextAddr,
          calls := w.calls ++ [Call.GenCSR { Host := s.hostname, RSAKeySize := 2048 },
            Call.Sign csrPEM] }) := by
  simp [applyServerCertificate, hG, hS]

/-- The refresh when `GenCSR` and `Sign` succeed and the key-pair assembly fails. -/
theorem applyServerCertificate_of_keyPair_error (env : Imports W) (s : Server W)
    (w : World W) (csrPEM privPEM certPEM : Bytes) (cert : Certificate) (e : GoError)
    (b1 b2 : W)
    (hG : env.GenCSR { Host := s.hostname, RSAKeySize := 2048 } w.backend
      = ((csrPEM, privPEM, none), b1))
    (hS : s.ca.Sign csrPEM b1 = ((certPEM, none), b2))
    (hK : env.X509KeyPair certPEM privPEM = (cert, some e)) :
    applyServerCertificate env s w =
      ((none, some e),
        { backend := b2, nextAddr := w.nextAddr,
          calls := w.calls ++ [Call.GenCSR { Host := s.hostname, RSAKeySize := 2048 },
            Call.Sign csrPEM, Call.X509KeyPair certPEM privPEM] }) := by
  simp [applyServerCertificate, hG, hS, hK]

/-- The refresh when all three steps succeed. -/
theorem applyServerCertificate_of_success (env : Imports W) (s : Server W) (w : World W)
    (csrPEM privPEM certPEM : Bytes) (cert : Certificate) (b1 b2 : W)
    (hG : env.GenCSR { Host := s.hostname, RSAKeySize := 2048 } w.backend
      = ((csrPEM, privPEM, none), b1))
    (hS : s.ca.Sign csrPEM b1 = ((certPEM, none), b2))
    (hK : env.X509KeyPair certPEM privPEM = (cert, none)) :
    applyServerCertificate env s w =
      ((some { addr := w.nextAddr, obj := cert }, none),
        { backend := b2, nextAddr := w.nextAddr + 1,
          calls := w.calls ++ [Call.GenCSR { Host := s.hostname, RSAKeySize := 2048 },
            Call.Sign csrPEM, Call.X509KeyPair certPEM privPEM] }) := by
  simp [applyServerCertificate, hG, hS, hK]

/-- The first call of a refresh is `GenCSR`, with the configured hostname and a
key size of 2048. -/
theorem applyServerCertificate_calls_start (env : Imports W) (s : Server W) (w : World W) :
    ∃ rest, (applyServerCertificate env s w).2.calls =
      w.calls ++ Call.GenCSR { Host := s.hostname, RSAKeySize := 2048 } :: rest := by
  rcases hG : env.GenCSR { Host := s.hostname, RSAKeySize := 2048 } w.backend with
    ⟨⟨csrPEM, privPEM, gerr⟩, b1⟩
  rcases hS : s.ca.Sign csrPEM b1 with ⟨⟨certPEM, serr⟩, b2⟩
  rcases hK : env.X509KeyPair certPEM privPEM with ⟨cert, kerr⟩
  cases gerr with
  | some e => exact ⟨[], by rw [applyServerCertificate_of_genCSR_error env s w _ _ e b1 hG]⟩
  | none =>
    cases serr with
    | some e =>
      exact ⟨_, by rw [applyServerCertificate_of_sign_error env s w _ _ _ e b1 b2 hG hS]⟩
    | none =>
      cases kerr with
      | some e =>
        exact ⟨_, by
          rw [applyServerCertificate_of_keyPair_error env s w _ _ _ cert e b1 b2 hG hS hK]⟩
      | none =>
        exact ⟨_, by
          rw [applyServerCertificate_of_success env s w _ _ _ cert b1 b2 hG hS hK]⟩

/-- A refresh either fails with a nil pointer, or returns a pointer to the address
that was unused before the call. -/
theorem applyServerCertificate_result (env : Imports W) (s : Server W) (w : World W) :
    (∃ e, (applyServerCertificate env s w).1 = (none, some e)) ∨
    (∃ c, (applyServerCertificate env s w).1 = (some { addr := w.nextAddr, obj := c }, none)) := by
  rcases hG : env.GenCSR { Host := s.hostname, RSAKeySize := 2048 } w.backend with
    ⟨⟨csrPEM, privPEM, gerr⟩, b1⟩
  rcases hS : s.ca.Sign csrPEM b1 with ⟨⟨certPEM, serr⟩, b2⟩
  rcases hK : env.X509KeyPair certPEM privPEM with ⟨cert, kerr⟩
  cases gerr with
  | some e =>
    exact Or.inl ⟨e, by rw [applyServerCertificate_of_genCSR_error env s w _ _ e b1 hG]⟩
  | none =>
    cases serr with
    | some e =>
      exact Or.inl ⟨e, by rw [applyServerCertificate_of_sign_error env s w _ _ _ e b1 b2 hG hS]⟩
    | none =>
      cases kerr with
      | some e =>
        exact Or.inl ⟨e, by
          rw [applyServerCertificate_of_keyPair_error env s w _ _ _ cert e b1 b2 hG hS hK]⟩
      | none =>
        exact Or.inr ⟨cert, by
          rw [applyServerCertificate_of_success env s w _ _ _ cert b1 b2 hG hS hK]⟩

/-- A certificate that is stale stays stale as time goes on. -/
theorem shouldRefresh_mono (now later : Time) (cert : Certificate) (h : now ≤ later)
    (hstale : shouldRefresh now cert = true) : shouldRefresh later cert = true := by
  unfold shouldRefresh at *
  cases hL : cert.Leaf with
  | none => simp
  | some leaf =>
    simp only [hL, Time.Before, decide_eq_true_eq] at hstale ⊢
    exact lt_of_lt_of_le hstale h

/-- When a refresh is needed, the callback runs `applyServerCertificate`: the
world after the call is the one the refresh leaves. -/
theorem GetCertificate_world_of_needsRefresh (env : Imports W) (now : Time) (s : Server W)
    (w : World W) (h : needsRefresh now s = true) :
    (GetCertificate env now s w).2.2 = (applyServerCertificate env s w).2 := by
  unfold GetCertificate
  rw [if_pos h]
  cases hE : (applyServerCertificate env s w).1.2 <;> simp [hE]

/-- C10: a refresh calls `GenCSR` once, with the server's hostname and a key size of
2048; if that fails it returns the error and calls nothing else; otherwise it
calls `Sign` once on exactly the CSR bytes `GenCSR` returned; if that fails it
returns the error and does not assemble a key pair; otherwise it calls
`X509KeyPair` on the certificate bytes `Sign` returned and the key bytes of the
same `GenCSR` call, and returns its error, or else a pointer to a newly
allocated certificate holding the assembled value. -/
theorem applyServerCertificate_steps (env : Imports W) (s : Server W) (w : World W)
    (csrPEM privPEM certPEM : Bytes) (cert : Certificate)
    (gerr serr kerr : Option GoError) (b1 b2 : W)
    (hG : env.GenCSR { Host := s.hostname, RSAKeySize := 2048 } w.backend
      = ((csrPEM, privPEM, gerr), b1))
    (hS : s.ca.Sign csrPEM b1 = ((certPEM, serr), b2))
    (hK : env.X509KeyPair certPEM privPEM = (cert, kerr)) :
    (∀ e, gerr = some e →
      applyServerCertificate env s w =
        ((none, some e),
          { backend := b1, nextAddr := w.nextAddr,
            calls := w.calls ++ [Call.GenCSR { Host := s.hostname, RSAKeySize := 2048 }] })) ∧
    (∀ e, gerr = none → serr = some e →
      applyServerCertificate env s w =
        ((none, some e),
          { backend := b2, nextAddr := w.nextAddr,
            calls := w.calls ++ [Call.GenCSR { Host := s.hostname, RSAKeySize := 2048 },
              Call.Sign csrPEM] })) ∧
    (∀ e, gerr = none → serr = none → kerr = some e →
      applyServerCertificate env s w =
        ((none, some e),
          { backend := b2, nextAddr := w.nextAddr,
            calls := w.calls ++ [Call.GenCSR { Host := s.hostname, RSAKeySize := 2048 },
              Call.Sign csrPEM, Call.X509KeyPair certPEM privPEM] })) ∧
    (gerr = none → serr = none → kerr = none →
      applyServerCertificate env s w =
        ((some { addr := w.nextAddr, obj := cert }, none),
          { backend := b2, nextAddr := w.nextAddr + 1,
            calls := w.calls ++ [Call.GenCSR { Host := s.hostname, RSAKeySize := 2048 },
              Call.Sign csrPEM, Call.X509KeyPair certPEM privPEM] })) := by
  refine ⟨?_, ?_, ?_, ?_⟩
  · intro e hg
    subst hg
    exact applyServerCertificate_of_genCSR_error env s w csrPEM privPEM e b1 hG
  · intro e hg hs
    subst hg hs
    exact applyServerCertificate_of_sign_error env s w csrPEM privPEM certPEM e b1 b2 hG hS
  · intro e hg hs hk
    subst hg hs hk
    exact applyServerCertificate_of_keyPair_error env s w csrPEM privPEM certPEM cert e b1 b2
      hG hS hK
  · intro hg hs hk
    subst hg hs hk
    exact applyServerCertificate_of_success env s w csrPEM privPEM certPEM cert b1 b2 hG hS hK

/-- C10, instantiated: a refresh of a new server for `istio-ca` against a backend
that signs with `[1, 2, 3]`. -/
theorem applyServerCertificate_steps_witness :
    (parsingImports 7000).GenCSR { Host := "istio-ca", RSAKeySize := 2048 } 0
      = (([67, 83, 82], [75, 69, 89], none), 0) ∧
    (fixedCA [1, 2, 3]).Sign [67, 83, 82] 0 = (([1, 2, 3], none), 1) ∧
    (parsingImports 7000).X509KeyPair [1, 2, 3] [75, 69, 89]
      = ({ Certificate := [[1, 2, 3]], PrivateKey := [75, 69, 89],
           Leaf := some { NotBefore := 0, NotAfter := 7000 } }, none) ∧
    applyServerCertificate (parsingImports 7000) (New (fixedCA [1, 2, 3]) "istio-ca" 8060)
        World.initial =
      ((some { addr := 0,
               obj := { Certificate := [[1, 2, 3]], PrivateKey := [75, 69, 89],
                        Leaf := some { NotBefore := 0, NotAfter := 7000 } } }, none),
        { backend := 1, nextAddr := 0 + 1,
          calls := [] ++ [Call.GenCSR { Host := "istio-ca", RSAKeySize := 2048 },
            Call.Sign [67, 83, 82], Call.X509KeyPair [1, 2, 3] [75, 69, 89]] }) :=
  ⟨rfl, rfl, rfl,
    (applyServerCertificate_steps (parsingImports 7000) (New (fixedCA [1, 2, 3]) "istio-ca" 8060)
      World.initial [67, 83, 82] [75, 69, 89] [1, 2, 3]
      { Certificate := [[1, 2, 3]], PrivateKey := [75, 69, 89],
        Leaf := some { NotBefore := 0, NotAfter := 7000 } }
      none none none 0 1 rfl rfl rfl).2.2.2 rfl rfl rfl⟩

/-! ## The per-handshake callback -/

/-- C4: when the server holds a certificate with a parsed leaf whose `NotAfter` is
more than `certExpirationBuffer` after the current time, the callback returns
that held pointer with a nil error and leaves the server and the world as they
were: no `GenCSR` call, no `Sign` call, no allocation. -/
theorem GetCertificate_fresh_returns_held (env : Imports W) (now : Time) (s : Server W)
    (w : World W) (held : CertificatePtr) (leaf : X509Certificate)
    (hheld : s.certificate = some held) (hleaf : held.obj.Leaf = some leaf)
    (hfresh : now + certExpirationBuffer < leaf.NotAfter) :
    GetCertificate env now s w = ((some held, none), s, w) := by
  have hno : needsRefresh now s = false := by
    simp only [needsRefresh, hheld, shouldRefresh, hleaf, Time.Before, Time.Add,
      decide_eq_false_iff_not, not_lt]
    linarith
  simp [GetCertificate, hno, hheld]

/-- C4, instantiated: a certificate expiring at `100000000000`, asked for at time
`1000`. -/
theorem GetCertificate_fresh_returns_held_witness :
    (serverHolding (fixedCA [1, 2, 3]) 100000000000).certificate
      = some { addr := 0, obj := certExpiringAt 100000000000 } ∧
    (certExpiringAt 100000000000).Leaf = some { NotBefore := 0, NotAfter := 100000000000 } ∧
    (1000 : Time) + certExpirationBuffer < 100000000000 ∧
    GetCertificate leaflessImports 1000 (serverHolding (fixedCA [1, 2, 3]) 100000000000)
        World.afterOneAlloc =
      ((some { addr := 0, obj := certExpiringAt 100000000000 }, none),
        serverHolding (fixedCA [1, 2, 3]) 100000000000, World.afterOneAlloc) :=
  ⟨rfl, rfl, by decide,
    GetCertificate_fresh_returns_held leaflessImports 1000
      (serverHolding (fixedCA [1, 2, 3]) 100000000000) World.afterOneAlloc
      { addr := 0, obj := certExpiringAt 100000000000 }
      { NotBefore := 0, NotAfter := 100000000000 } rfl rfl (by decide)⟩

/-- C5 (refuted at the boundary): a server holds a certificate whose
`NotAfter - certExpirationBuffer` equals the current time; the callback returns
that held certificate and makes no call at all. -/
theorem GetCertificate_boundary_returns_held :
    (certExpiringAt 60000001000).Leaf = some { NotBefore := 0, NotAfter := 60000001000 } ∧
    (60000001000 : Time) - certExpirationBuffer ≤ 1000 ∧
    (GetCertificate leaflessImports 1000 (serverHolding (fixedCA [1, 2, 3]) 60000001000)
        World.afterOneAlloc).1 = (some { addr := 0, obj := certExpiringAt 60000001000 }, none) ∧
    (GetCertificate leaflessImports 1000 (serverHolding (fixedCA [1, 2, 3]) 60000001000)
        World.afterOneAlloc).2.2.calls = [] := by
  decide

/-- C5 (amended): when the server holds a certificate whose leaf has
`NotAfter - certExpirationBuffer` strictly before the current time, the callback
performs a refresh (the world after the call is the one `applyServerCertificate`
leaves, and its first new call is `GenCSR`); it either fails with an error and a
nil pointer, or returns a pointer to the certificate allocated by this refresh,
which is then also the held certificate; in neither case does it return the
pointer held before the call. -/
theorem GetCertificate_stale_refreshes (env : Imports W) (now : Time) (s : Server W)
    (w : World W) (held : CertificatePtr) (leaf : X509Certificate)
    (hheld : s.certificate = some held) (hleaf : held.obj.Leaf = some leaf)
    (hstale : leaf.NotAfter - certExpirationBuffer < now)
    (halloc : held.addr < w.nextAddr) :
    (GetCertificate env now s w).2.2 = (applyServerCertificate env s w).2 ∧
    (∃ rest, (GetCertificate env now s w).2.2.calls =
      w.calls ++ Call.GenCSR { Host := s.hostname, RSAKeySize := 2048 } :: rest) ∧
    ((∃ e, (GetCertificate env now s w).1 = (none, some e)) ∨
      (∃ c, (applyServerCertificate env s w).1 = (some { addr := w.nextAddr, obj := c }, none) ∧
        (GetCertificate env now s w).1 = (some { addr := w.nextAddr, obj := c }, none) ∧
        (GetCertificate env now s w).2.1.certificate = (GetCertificate env now s w).1.1)) ∧
    (GetCertificate env now s w).1.1 ≠ some held := by
  have hneed : needsRefresh now s = true := by
    simp only [needsRefresh, hheld, shouldRefresh, hleaf, Time.Before, Time.Add,
      decide_eq_true_eq]
    linarith
  have hworld := GetCertificate_world_of_needsRefresh env now s w hneed
  refine ⟨hworld, ?_, ?_⟩
  · rw [hworld]
    exact applyServerCertificate_calls_start env s w
  · rcases applyServerCertificate_result env s w with ⟨e, he⟩ | ⟨c, hc⟩
    · have h1 : (GetCertificate env now s w).1 = (none, some e) := by
        simp [GetCertificate, hneed, he]
      exact ⟨Or.inl ⟨e, h1⟩, by simp [h1]⟩
    · have h1 : (GetCertificate env now s w).1 =
          (some { addr := w.nextAddr, obj := c }, none) := by
        simp [GetCertificate, hneed, hc]
      have h2 : (GetCertificate env now s w).2.1.certificate =
          some { addr := w.nextAddr, obj := c } := by
        simp [GetCertificate, hneed, hc]
      refine ⟨Or.inr ⟨c, hc, h1, by rw [h2, h1]⟩, ?_⟩
      rw [h1]
      intro hEq
      have haddr : w.nextAddr = held.addr := by
        have := congrArg (Option.map CertificatePtr.addr) hEq
        simpa using this
      omega

/-- C5 (amended), instantiated: a certificate that expired at `5000`, asked for at
time `60000009000`. -/
theorem GetCertificate_stale_refreshes_witness :
    (serverHolding (fixedCA [1, 2, 3]) 5000).certificate
      = some { addr := 0, obj := certExpiringAt 5000 } ∧
    (certExpiringAt 5000).Leaf = some { NotBefore := 0, NotAfter := 5000 } ∧
    (5000 : Time) - certExpirationBuffer < 60000009000 ∧
    (0 : Nat) < World.afterOneAlloc.nextAddr ∧
    (GetCertificate leaflessImports 60000009000 (serverHolding (fixedCA [1, 2, 3]) 5000)
        World.afterOneAlloc).1.1 ≠ some { addr := 0, obj := certExpiringAt 5000 } :=
  ⟨rfl, rfl, by decide, by decide,
    (GetCertificate_stale_refreshes leaflessImports 60000009000
      (serverHolding (fixedCA [1, 2, 3]) 5000) World.afterOneAlloc
      { addr := 0, obj := certExpiringAt 5000 } { NotBefore := 0, NotAfter := 5000 }
      rfl rfl (by decide) (by decide)).2.2.2⟩

/-- C6: in a state that needs a refresh (no certificate held, or the held one
stale), if `GenCSR` fails, or `Sign` fails, or the key-pair assembly fails, with
error `e`, then the callback returns `e` and a nil pointer, and the server is
exactly as before: same held certificate (or none), hostname, port and backend
handle.  A following call at the same or a later time therefore starts a refresh
again: its first new call is `GenCSR`. -/
theorem GetCertificate_refresh_failure_keeps_state (env : Imports W) (now : Time)
    (s : Server W) (w : World W)
    (csrPEM privPEM certPEM : Bytes) (cert : Certificate)
    (gerr serr kerr : Option GoError) (b1 b2 : W) (e : GoError)
    (hneed : s.certificate = none ∨
      ∃ p, s.certificate = some p ∧ shouldRefresh now p.obj = true)
    (hG : env.GenCSR { Host := s.hostname, RSAKeySize := 2048 } w.backend
      = ((csrPEM, privPEM, gerr), b1))
    (hS : s.ca.Sign csrPEM b1 = ((certPEM, serr), b2))
    (hK : env.X509KeyPair certPEM privPEM = (cert, kerr))
    (hfail : gerr = some e ∨ (gerr = none ∧ serr = some e) ∨
      (gerr = none ∧ serr = none ∧ kerr = some e)) :
    (GetCertificate env now s w).1 = (none, some e) ∧
    (GetCertificate env now s w).2.1 = s ∧
    ∀ (later : Time) (w1 : World W), now ≤ later →
      ∃ rest, (GetCertificate env later (GetCertificate env now s w).2.1 w1).2.2.calls =
        w1.calls ++ Call.GenCSR { Host := s.hostname, RSAKeySize := 2048 } :: rest := by
  have hn : needsRefresh now s = true := by
    rcases hneed with h | ⟨p, hp, hst⟩
    · simp [needsRefresh, h]
    · simp [needsRefresh, hp, hst]
  have hmono : ∀ later : Time, now ≤ later → needsRefresh later s = true := by
    intro later hle
    rcases hneed with h | ⟨p, hp, hst⟩
    · simp [needsRefresh, h]
    · simp [needsRefresh, hp, shouldRefresh_mono now later p.obj hle hst]
  have herr : (applyServerCertificate env s w).1 = (none, some e) := by
    rcases hfail with hg | ⟨hg, hs⟩ | ⟨hg, hs, hk⟩
    · subst hg
      rw [applyServerCertificate_of_genCSR_error env s w csrPEM privPEM e b1 hG]
    · subst hg hs
      rw [applyServerCertificate_of_sign_error env s w csrPEM privPEM certPEM e b1 b2 hG hS]
    · subst hg hs hk
      rw [applyServerCertificate_of_keyPair_error env s w csrPEM privPEM certPEM cert e b1 b2
        hG hS hK]
  have hsame : (GetCertificate env now s w).2.1 = s := by
    simp [GetCertificate, hn, herr]
  refine ⟨by simp [GetCertificate, hn, herr], hsame, ?_⟩
  intro later w1 hle
  rw [hsame, GetCertificate_world_of_needsRefresh env later s w1 (hmono later hle)]
  exact applyServerCertificate_calls_start env s w1

/-- C6, instantiated: a server holding an expired certificate, against a backend
whose `Sign` fails. -/
theorem GetCertificate_refresh_failure_keeps_state_witness :
    ((serverHolding failingCA 5000).certificate = none ∨
      ∃ p, (serverHolding failingCA 5000).certificate = some p ∧
        shouldRefresh 60000009000 p.obj = true) ∧
    leaflessImports.GenCSR { Host := "istio-ca", RSAKeySize := 2048 } 0
      = (([67, 83, 82], [75, 69, 89], none), 0) ∧
    failingCA.Sign [67, 83, 82] 0 = (([], some "sign: authority unavailable"), 1) ∧
    ((GetCertificate leaflessImports 60000009000 (serverHolding failingCA 5000)
        World.afterOneAlloc).1 = (none, some "sign: authority unavailable") ∧
      (GetCertificate leaflessImports 60000009000 (serverHolding failingCA 5000)
        World.afterOneAlloc).2.1 = serverHolding failingCA 5000) :=
  ⟨Or.inr ⟨{ addr := 0, obj := certExpiringAt 5000 }, rfl, by decide⟩, rfl, rfl,
    (GetCertificate_refresh_failure_keeps_state leaflessImports 60000009000
      (serverHolding failingCA 5000) World.afterOneAlloc
      [67, 83, 82] [75, 69, 89] []
      { Certificate := [[]], PrivateKey := [75, 69, 89], Leaf := none }
      none (some "sign: authority unavailable") none 0 1 "sign: authority unavailable"
      (Or.inr ⟨{ addr := 0, obj := certExpiringAt 5000 }, rfl, by decide⟩) rfl rfl rfl
      (Or.inr (Or.inl ⟨rfl, rfl⟩))).1,
    (GetCertificate_refresh_failure_keeps_state leaflessImports 60000009000
      (serverHolding failingCA 5000) World.afterOneAlloc
      [67, 83, 82] [75, 69, 89] []
      { Certificate := [[]], PrivateKey := [75, 69, 89], Leaf := none }
      none (some "sign: authority unavailable") none 0 1 "sign: authority unavailable"
      (Or.inr ⟨{ addr := 0, obj := certExpiringAt 5000 }, rfl, by decide⟩) rfl rfl rfl
      (Or.inr (Or.inl ⟨rfl, rfl⟩))).2.1⟩

/-- C8: a new server, a backend whose first `Sign` fails with `e` and whose second
`Sign` succeeds with `certPEM`, a CSR codec that succeeds both times and a
key-pair assembly that succeeds.  The first call of the callback returns `e`
and a nil pointer and leaves the server without a certificate; the second call
runs the refresh again, returns a pointer to the certificate assembled from
`certPEM` and the key of the second CSR, with a nil error, and the server then
holds that pointer. -/
theorem GetCertificate_retry_after_sign_failure (env : Imports W)
    (ca : CertificateAuthority W) (hostname : String) (port : Int) (w : World W)
    (now1 now2 : Time) (csr1 priv1 x1 csr2 priv2 certPEM : Bytes) (cert : Certificate)
    (e : GoError) (b1 b2 b3 b4 : W)
    (hG1 : env.GenCSR { Host := hostname, RSAKeySize := 2048 } w.backend
      = ((csr1, priv1, none), b1))
    (hS1 : ca.Sign csr1 b1 = ((x1, some e), b2))
    (hG2 : env.GenCSR { Host := hostname, RSAKeySize := 2048 } b2
      = ((csr2, priv2, none), b3))
    (hS2 : ca.Sign csr2 b3 = ((certPEM, none), b4))
    (hK : env.X509KeyPair certPEM priv2 = (cert, none)) :
    GetCertificate env now1 (New ca hostname port) w =
      ((none, some e), New ca hostname port,
        { backend := b2, nextAddr := w.nextAddr,
          calls := w.calls ++ [Call.GenCSR { Host := hostname, RSAKeySize := 2048 },
            Call.Sign csr1] }) ∧
    (GetCertificate env now1 (New ca hostname port) w).2.1.certificate = none ∧
    GetCertificate env now2 (GetCertificate env now1 (New ca hostname port) w).2.1
        (GetCertificate env now1 (New ca hostname port) w).2.2 =
      ((some { addr := w.nextAddr, obj := cert }, none),
        { ca := ca, certificate := some { addr := w.nextAddr, obj := cert },
          hostname := hostname, port := port },
        { backend := b4, nextAddr := w.nextAddr + 1,
          calls := (w.calls ++ [Call.GenCSR { Host := hostname, RSAKeySize := 2048 },
            Call.Sign csr1]) ++ [Call.GenCSR { Host := hostname, RSAKeySize := 2048 },
            Call.Sign csr2, Call.X509KeyPair certPEM priv2] }) := by
  have h1 : GetCertificate env now1 (New ca hostname port) w =
      ((none, some e), New ca hostname port,
        { backend := b2, nextAddr := w.nextAddr,
          calls := w.calls ++ [Call.GenCSR { Host := hostname, RSAKeySize := 2048 },
            Call.Sign csr1] }) := by
    have ha := applyServerCertificate_of_sign_error env (New ca hostname port) w
      csr1 priv1 x1 e b1 b2 hG1 hS1
    simp only [GetCertificate, needsRefresh, New] at ha ⊢
    simp [ha]
  refine ⟨h1, by rw [h1]; rfl, ?_⟩
  rw [h1]
  have ha := applyServerCertificate_of_success env (New ca hostname port)
    { backend := b2, nextAddr := w.nextAddr,
      calls := w.calls ++ [Call.GenCSR { Host := hostname, RSAKeySize := 2048 },
        Call.Sign csr1] }
    csr2 priv2 certPEM cert b3 b4 hG2 hS2 hK
  simp only [GetCertificate, needsRefresh, New] at ha ⊢
  simp [ha]

/-- C8, instantiated: the backend `flakyCA`, whose first `Sign` fails. -/
theorem GetCertificate_retry_after_sign_failure_witness :
    (flakyCA [1, 2, 3]).Sign [67, 83, 82] 0 = (([], some "sign: authority unavailable"), 1) ∧
    (flakyCA [1, 2, 3]).Sign [67, 83, 82] 1 = (([1, 2, 3], none), 2) ∧
    (GetCertificate leaflessImports 10 (New (flakyCA [1, 2, 3]) "istio-ca" 8060)
        World.initial).1 = (none, some "sign: authority unavailable") ∧
    (GetCertificate leaflessImports 10 (New (flakyCA [1, 2, 3]) "istio-ca" 8060)
        World.initial).2.1.certificate = none ∧
    (GetCertificate leaflessImports 20
        (GetCertificate leaflessImports 10 (New (flakyCA [1, 2, 3]) "istio-ca" 8060)
          World.initial).2.1
        (GetCertificate leaflessImports 10 (New (flakyCA [1, 2, 3]) "istio-ca" 8060)
          World.initial).2.2).1 =
      (some { addr := 0,
              obj := { Certificate := [[1, 2, 3]], PrivateKey := [75, 69, 89], Leaf := none } },
        none) :=
  ⟨rfl, rfl,
    congrArg Prod.fst
      (GetCertificate_retry_after_sign_failure leaflessImports (flakyCA [1, 2, 3]) "istio-ca" 8060
        World.initial 10 20 [67, 83, 82] [75, 69, 89] [] [67, 83, 82] [75, 69, 89] [1, 2, 3]
        { Certificate := [[1, 2, 3]], PrivateKey := [75, 69, 89], Leaf := none }
        "sign: authority unavailable" 0 1 1 2 rfl rfl rfl rfl rfl).1,
    (GetCertificate_retry_after_sign_failure leaflessImports (flakyCA [1, 2, 3]) "istio-ca" 8060
        World.initial 10 20 [67, 83, 82] [75, 69, 89] [] [67, 83, 82] [75, 69, 89] [1, 2, 3]
        { Certificate := [[1, 2, 3]], PrivateKey := [75, 69, 89], Leaf := none }
        "sign: authority unavailable" 0 1 1 2 rfl rfl rfl rfl rfl).2.1,
    congrArg Prod.fst
      (GetCertificate_retry_after_sign_failure leaflessImports (flakyCA [1, 2, 3]) "istio-ca" 8060
        World.initial 10 20 [67, 83, 82] [75, 69, 89] [] [67, 83, 82] [75, 69, 89] [1, 2, 3]
        { Certificate := [[1, 2, 3]], PrivateKey := [75, 69, 89], Leaf := none }
        "sign: authority unavailable" 0 1 1 2 rfl rfl rfl rfl rfl).2.2⟩

/-! ## Two calls in a row

Whether a certificate the server built itself is served again depends on the
`Leaf` field that the key-pair assembly returns: `shouldRefresh` treats a nil
`Leaf` as stale. -/

/-- A held certificate without a parsed leaf is stale at every time. -/
theorem needsRefresh_of_leafless (now : Time) (s : Server W) (p : CertificatePtr)
    (hheld : s.certificate = some p) (hleaf : p.obj.Leaf = none) :
    needsRefresh now s = true := by
  simp [needsRefresh, hheld, shouldRefresh, hleaf]

/-- With a key-pair assembly that never fills in `Leaf`, every certificate the
callback stores is stale at once: whatever the time of the next call, that call
starts a new refresh. -/
theorem GetCertificate_refreshes_again_of_leafless (env : Imports W)
    (hnil : ∀ certPEM keyPEM, (env.X509KeyPair certPEM keyPEM).1.Leaf = none)
    (now1 now2 : Time) (s : Server W) (w w1 : World W) (p : CertificatePtr)
    (hneed : needsRefresh now1 s = true)
    (hret : (GetCertificate env now1 s w).1 = (some p, none)) :
    ∃ rest, (GetCertificate env now2 (GetCertificate env now1 s w).2.1 w1).2.2.calls =
      w1.calls ++ Call.GenCSR { Host := s.hostname, RSAKeySize := 2048 } :: rest := by
  rcases hG : env.GenCSR { Host := s.hostname, RSAKeySize := 2048 } w.backend with
    ⟨⟨csrPEM, privPEM, gerr⟩, b1⟩
  rcases hS : s.ca.Sign csrPEM b1 with ⟨⟨certPEM, serr⟩, b2⟩
  rcases hK : env.X509KeyPair certPEM privPEM with ⟨cert, kerr⟩
  have hcert : cert.Leaf = none := by
    have := hnil certPEM privPEM
    rw [hK] at this
    exact this
  cases gerr with
  | some e =>
    have ha := applyServerCertificate_of_genCSR_error env s w csrPEM privPEM e b1 hG
    simp [GetCertificate, hneed, ha] at hret
  | none =>
    cases serr with
    | some e =>
      have ha := applyServerCertificate_of_sign_error env s w csrPEM privPEM certPEM e b1 b2 hG hS
      simp [GetCertificate, hneed, ha] at hret
    | none =>
      cases kerr with
      | some e =>
        have ha := applyServerCertificate_of_keyPair_error env s w csrPEM privPEM certPEM cert e
          b1 b2 hG hS hK
        simp [GetCertificate, hneed, ha] at hret
      | none =>
        have ha := applyServerCertificate_of_success env s w csrPEM privPEM certPEM cert
          b1 b2 hG hS hK
        have hs1 : (GetCertificate env now1 s w).2.1 =
            { ca := s.ca, certificate := some { addr := w.nextAddr, obj := cert },
              hostname := s.hostname, port := s.port } := by
          simp [GetCertificate, hneed, ha]
        rw [hs1]
        have hn2 := needsRefresh_of_leafless now2
          ({ ca := s.ca, certificate := some { addr := w.nextAddr, obj := cert },
             hostname := s.hostname, port := s.port } : Server W)
          { addr := w.nextAddr, obj := cert } rfl hcert
        rw [GetCertificate_world_of_needsRefresh env now2 _ w1 hn2]
        exact applyServerCertificate_calls_start env _ w1

/-- With a key-pair assembly that does fill in `Leaf`, the certificate stored by a
successful refresh is returned again, with no new call, by every later call made
while `NotAfter` is more than `certExpirationBuffer` away. -/
theorem GetCertificate_cached_of_parsed_leaf (env : Imports W) (now1 now2 : Time)
    (s : Server W) (w : World W)
    (csrPEM privPEM certPEM : Bytes) (cert : Certificate) (leaf : X509Certificate) (b1 b2 : W)
    (hneed : needsRefresh now1 s = true)
    (hG : env.GenCSR { Host := s.hostname, RSAKeySize := 2048 } w.backend
      = ((csrPEM, privPEM, none), b1))
    (hS : s.ca.Sign csrPEM b1 = ((certPEM, none), b2))
    (hK : env.X509KeyPair certPEM privPEM = (cert, none))
    (hleaf : cert.Leaf = some leaf)
    (hfresh : now2 + certExpirationBuffer < leaf.NotAfter) :
    (GetCertificate env now1 s w).1 = (some { addr := w.nextAddr, obj := cert }, none) ∧
    GetCertificate env now2 (GetCertificate env now1 s w).2.1 (GetCertificate env now1 s w).2.2 =
      ((some { addr := w.nextAddr, obj := cert }, none),
        (GetCertificate env now1 s w).2.1, (GetCertificate env now1 s w).2.2) := by
  have ha := applyServerCertificate_of_success env s w csrPEM privPEM certPEM cert b1 b2 hG hS hK
  have h1 : GetCertificate env now1 s w =
      ((some { addr := w.nextAddr, obj := cert }, none),
        { ca := s.ca, certificate := some { addr := w.nextAddr, obj := cert },
          hostname := s.hostname, port := s.port },
        { backend := b2, nextAddr := w.nextAddr + 1,
          calls := w.calls ++ [Call.GenCSR { Host := s.hostname, RSAKeySize := 2048 },
            Call.Sign csrPEM, Call.X509KeyPair certPEM privPEM] }) := by
    simp [GetCertificate, hneed, ha]
  rw [h1]
  refine ⟨rfl, ?_⟩
  have hno : needsRefresh now2
      ({ ca := s.ca, certificate := some { addr := w.nextAddr, obj := cert },
         hostname := s.hostname, port := s.port } : Server W) = false := by
    simp only [needsRefresh, shouldRefresh, hleaf, Time.Before, Time.Add,
      decide_eq_false_iff_not, not_lt]
    linarith
  simp [GetCertificate, hno]

/-- C7: a new server, a backend whose `Sign` always succeeds with the same bytes
`X`, a CSR codec that succeeds and a key-pair assembly that yields a certificate
with a parsed leaf.  The first call of the callback performs one refresh (one
`GenCSR`, one `Sign`, one key-pair assembly) and returns a pointer to the
certificate assembled from `X`, which the server then holds; a second call made
more than `certExpirationBuffer` before that certificate's `NotAfter` returns
the identical pointer and leaves the server and the world as they were: no new
`GenCSR` and no new `Sign`. -/
theorem GetCertificate_twice_with_fixed_backend (env : Imports W)
    (ca : CertificateAuthority W) (hostname : String) (port : Int) (w : World W)
    (now1 now2 : Time) (X csrPEM privPEM : Bytes) (cert : Certificate)
    (leaf : X509Certificate) (b1 : W)
    (hSign : ∀ csr b, (ca.Sign csr b).1 = (X, none))
    (hG : env.GenCSR { Host := hostname, RSAKeySize := 2048 } w.backend
      = ((csrPEM, privPEM, none), b1))
    (hK : env.X509KeyPair X privPEM = (cert, none))
    (hleaf : cert.Leaf = some leaf)
    (hfresh : now2 + certExpirationBuffer < leaf.NotAfter) :
    GetCertificate env now1 (New ca hostname port) w =
      ((some { addr := w.nextAddr, obj := cert }, none),
        { ca := ca, certificate := some { addr := w.nextAddr, obj := cert },
          hostname := hostname, port := port },
        { backend := (ca.Sign csrPEM b1).2, nextAddr := w.nextAddr + 1,
          calls := w.calls ++ [Call.GenCSR { Host := hostname, RSAKeySize := 2048 },
            Call.Sign csrPEM, Call.X509KeyPair X privPEM] }) ∧
    GetCertificate env now2 (GetCertificate env now1 (New ca hostname port) w).2.1
        (GetCertificate env now1 (New ca hostname port) w).2.2 =
      ((some { addr := w.nextAddr, obj := cert }, none),
        (GetCertificate env now1 (New ca hostname port) w).2.1,
        (GetCertificate env now1 (New ca hostname port) w).2.2) := by
  have hS : ca.Sign csrPEM b1 = ((X, none), (ca.Sign csrPEM b1).2) := by
    rw [← hSign csrPEM b1]
  have hneed : needsRefresh now1 (New ca hostname port) = true := rfl
  have ha := applyServerCertificate_of_success env (New ca hostname port) w csrPEM privPEM X
    cert b1 (ca.Sign csrPEM b1).2 hG hS hK
  have h1 : GetCertificate env now1 (New ca hostname port) w =
      ((some { addr := w.nextAddr, obj := cert }, none),
        { ca := ca, certificate := some { addr := w.nextAddr, obj := cert },
          hostname := hostname, port := port },
        { backend := (ca.Sign csrPEM b1).2, nextAddr := w.nextAddr + 1,
          calls := w.calls ++ [Call.GenCSR { Host := hostname, RSAKeySize := 2048 },
            Call.Sign csrPEM, Call.X509KeyPair X privPEM] }) := by
    simp only [GetCertificate, hneed, if_true]
    simp only [New] at ha
    simp [ha, New]
  refine ⟨h1, ?_⟩
  exact (GetCertificate_cached_of_parsed_leaf env now1 now2 (New ca hostname port) w
    csrPEM privPEM X cert leaf b1 (ca.Sign csrPEM b1).2 hneed hG hS hK hleaf hfresh).2

/-- C7, instantiated: the backend always signs with `[1, 2, 3]`, the assembled
certificate expires at `100000000000`, the calls are made at `1000` and `2000`. -/
theorem GetCertificate_twice_with_fixed_backend_witness :
    (∀ csr b, ((fixedCA [1, 2, 3]).Sign csr b).1 = ([1, 2, 3], none)) ∧
    (2000 : Time) + certExpirationBuffer < 100000000000 ∧
    (GetCertificate (parsingImports 100000000000) 1000
        (New (fixedCA [1, 2, 3]) "istio-ca" 8060) World.initial).1 =
      (some { addr := 0,
              obj := { Certificate := [[1, 2, 3]], PrivateKey := [75, 69, 89],
                       Leaf := some { NotBefore := 0, NotAfter := 100000000000 } } }, none) ∧
    GetCertificate (parsingImports 100000000000) 2000
        (GetCertificate (parsingImports 100000000000) 1000
          (New (fixedCA [1, 2, 3]) "istio-ca" 8060) World.initial).2.1
        (GetCertificate (parsingImports 100000000000) 1000
          (New (fixedCA [1, 2, 3]) "istio-ca" 8060) World.initial).2.2 =
      ((some { addr := 0,
               obj := { Certificate := [[1, 2, 3]], PrivateKey := [75, 69, 89],
                        Leaf := some { NotBefore := 0, NotAfter := 100000000000 } } }, none),
        (GetCertificate (parsingImports 100000000000) 1000
          (New (fixedCA [1, 2, 3]) "istio-ca" 8060) World.initial).2.1,
        (GetCertificate (parsingImports 100000000000) 1000
          (New (fixedCA [1, 2, 3]) "istio-ca" 8060) World.initial).2.2) :=
  ⟨fun _ _ => rfl, by decide,
    congrArg Prod.fst
      (GetCertificate_twice_with_fixed_backend (parsingImports 100000000000)
        (fixedCA [1, 2, 3]) "istio-ca" 8060 World.initial 1000 2000 [1, 2, 3]
        [67, 83, 82] [75, 69, 89]
        { Certificate := [[1, 2, 3]], PrivateKey := [75, 69, 89],
          Leaf := some { NotBefore := 0, NotAfter := 100000000000 } }
        { NotBefore := 0, NotAfter := 100000000000 } 0
        (fun _ _ => rfl) rfl rfl rfl (by decide)).1,
    (GetCertificate_twice_with_fixed_backend (parsingImports 100000000000)
        (fixedCA [1, 2, 3]) "istio-ca" 8060 World.initial 1000 2000 [1, 2, 3]
        [67, 83, 82] [75, 69, 89]
        { Certificate := [[1, 2, 3]], PrivateKey := [75, 69, 89],
          Leaf := some { NotBefore := 0, NotAfter := 100000000000 } }
        { NotBefore := 0, NotAfter := 100000000000 } 0
        (fun _ _ => rfl) rfl rfl rfl (by decide)).2⟩

/-! ## Concurrent handshakes on a server without a certificate -/

/-- The goroutine right after the prefix `pre` is the head of what follows. -/
theorem goroutines_get_after (pre rest : List Goroutine) (g : Goroutine) :
    (pre ++ g :: rest)[pre.length]? = some g := by
  induction pre with
  | nil => simp
  | cons a t ih => simpa using ih

/-- Overwriting the goroutine right after the prefix `pre`. -/
theorem goroutines_set_after (pre rest : List Goroutine) (g h : Goroutine) :
    (pre ++ g :: rest).set pre.length h = pre ++ h :: rest := by
  induction pre with
  | nil => rfl
  | cons a t ih => simp [ih]

/-- A single goroutine that takes both its steps does what the closure does. -/
theorem run_single_eq_GetCertificate (env : Imports W) (now : Nat → Time) (s : Server W)
    (w : World W) :
    run env now [0, 0] (spawn 1 s w) =
      { goroutines := [Goroutine.done (GetCertificate env (now 0) s w).1],
        server := (GetCertificate env (now 0) s w).2.1,
        world := (GetCertificate env (now 0) s w).2.2 } := by
  cases hn : needsRefresh (now 0) s with
  | false => simp [run, spawn, stepGoroutine, GetCertificate, hn]
  | true =>
    cases he : (applyServerCertificate env s w).1.2 with
    | none => simp [run, spawn, stepGoroutine, GetCertificate, hn, he]
    | some e => simp [run, spawn, stepGoroutine, GetCertificate, hn, he]

/-- On a server that holds a fresh certificate, goroutines that run one after
another all return the held pointer and change neither server nor world. -/
theorem run_serialFrom_of_fresh (env : Imports W) (now : Nat → Time) (ptr : CertificatePtr)
    (k : Nat) : ∀ (pre : List Goroutine) (s : Server W) (w : World W),
    s.certificate = some ptr → (∀ i, needsRefresh (now i) s = false) →
    run env now (serialFrom pre.length k)
        { goroutines := pre ++ List.replicate k Goroutine.start, server := s, world := w } =
      { goroutines := pre ++ List.replicate k (Goroutine.done (some ptr, none)),
        server := s, world := w } := by
  induction k with
  | zero =>
    intro pre s w _ _
    rfl
  | succ k ih =>
    intro pre s w hheld hfresh
    have hstep1 : stepGoroutine env now pre.length
        { goroutines := pre ++ List.replicate (k + 1) Goroutine.start, server := s, world := w } =
        { goroutines := pre ++ Goroutine.done (some ptr, none) :: List.replicate k Goroutine.start,
          server := s, world := w } := by
      simp only [stepGoroutine, List.replicate_succ, goroutines_get_after,
        goroutines_set_after, hfresh pre.length, hheld]
      simp
    have hstep2 : stepGoroutine env now pre.length
        { goroutines := pre ++ Goroutine.done (some ptr, none) :: List.replicate k Goroutine.start,
          server := s, world := w } =
        { goroutines := pre ++ Goroutine.done (some ptr, none) :: List.replicate k Goroutine.start,
          server := s, world := w } := by
      simp only [stepGoroutine, goroutines_get_after]
    have hih := ih (pre ++ [Goroutine.done (some ptr, none)]) s w hheld hfresh
    simp only [List.length_append, List.length_singleton, List.append_assoc,
      List.singleton_append] at hih
    simp only [serialFrom, run, List.foldl_cons, hstep1, hstep2]
    simp only [run] at hih
    rw [hih, List.replicate_succ]

/-- C9 (refuted): two handshakes on a new server, with collaborators that always
succeed and a key-pair assembly that keeps the parsed leaf.  When both
goroutines evaluate the condition before either runs its refresh, two refreshes
occur (two `GenCSR`, two `Sign`) and the two calls return different
certificates. -/
theorem concurrent_handshakes_refresh_twice :
    (run (parsingImports 100000000000) (fun _ => 1000) [0, 1, 0, 1]
        (spawn 2 (New (fixedCA [1, 2, 3]) "istio-ca" 8060) World.initial)).goroutines =
      [Goroutine.done
          (some { addr := 0,
                  obj := { Certificate := [[1, 2, 3]], PrivateKey := [75, 69, 89],
                           Leaf := some { NotBefore := 0, NotAfter := 100000000000 } } }, none),
        Goroutine.done
          (some { addr := 1,
                  obj := { Certificate := [[1, 2, 3]], PrivateKey := [75, 69, 89],
                           Leaf := some { NotBefore := 0, NotAfter := 100000000000 } } }, none)] ∧
    (run (parsingImports 100000000000) (fun _ => 1000) [0, 1, 0, 1]
        (spawn 2 (New (fixedCA [1, 2, 3]) "istio-ca" 8060) World.initial)).world.calls =
      [Call.GenCSR { Host := "istio-ca", RSAKeySize := 2048 }, Call.Sign [67, 83, 82],
        Call.X509KeyPair [1, 2, 3] [75, 69, 89],
        Call.GenCSR { Host := "istio-ca", RSAKeySize := 2048 }, Call.Sign [67, 83, 82],
        Call.X509KeyPair [1, 2, 3] [75, 69, 89]] := by
  decide

/-- C9 (amended): `N` handshakes on a server that holds no certificate, run one
after another without overlap, with a CSR codec, a backend and a key-pair
assembly that succeed and yield a certificate whose parsed leaf expires more
than `certExpirationBuffer` after every call.  Exactly one refresh occurs (one
`GenCSR`, one `Sign`, one key-pair assembly), every one of the `N` calls
returns the pointer to the certificate of that refresh, and the server holds
it. -/
theorem serial_handshakes_refresh_once (env : Imports W) (now : Nat → Time) (s : Server W)
    (w : World W) (N : Nat) (csrPEM privPEM certPEM : Bytes) (cert : Certificate)
    (leaf : X509Certificate) (b1 b2 : W)
    (hN : 0 < N) (hnone : s.certificate = none)
    (hG : env.GenCSR { Host := s.hostname, RSAKeySize := 2048 } w.backend
      = ((csrPEM, privPEM, none), b1))
    (hS : s.ca.Sign csrPEM b1 = ((certPEM, none), b2))
    (hK : env.X509KeyPair certPEM privPEM = (cert, none))
    (hleaf : cert.Leaf = some leaf)
    (hfresh : ∀ i, now i + certExpirationBuffer < leaf.NotAfter) :
    run env now (serialSchedule N) (spawn N s w) =
      { goroutines :=
          List.replicate N (Goroutine.done (some { addr := w.nextAddr, obj := cert }, none)),
        server :=
          { ca := s.ca, certificate := some { addr := w.nextAddr, obj := cert },
            hostname := s.hostname, port := s.port },
        world :=
          { backend := b2, nextAddr := w.nextAddr + 1,
            calls := w.calls ++ [Call.GenCSR { Host := s.hostname, RSAKeySize := 2048 },
              Call.Sign csrPEM, Call.X509KeyPair certPEM privPEM] } } := by
  obtain ⟨k, rfl⟩ : ∃ k, N = k + 1 := ⟨N - 1, by omega⟩
  have hneed : needsRefresh (now 0) s = true := by simp [needsRefresh, hnone]
  have ha := applyServerCertificate_of_success env s w csrPEM privPEM certPEM cert b1 b2 hG hS hK
  have hstep1 : stepGoroutine env now 0 (spawn (k + 1) s w) =
      { goroutines := Goroutine.refreshing :: List.replicate k Goroutine.start,
        server := s, world := w } := by
    simp [stepGoroutine, spawn, List.replicate_succ, hneed]
  have hstep2 : stepGoroutine env now 0
      { goroutines := Goroutine.refreshing :: List.replicate k Goroutine.start,
        server := s, world := w } =
      { goroutines := [Goroutine.done (some { addr := w.nextAddr, obj := cert }, none)] ++
          List.replicate k Goroutine.start,
        server :=
          { ca := s.ca, certificate := some { addr := w.nextAddr, obj := cert },
            hostname := s.hostname, port := s.port },
        world :=
          { backend := b2, nextAddr := w.nextAddr + 1,
            calls := w.calls ++ [Call.GenCSR { Host := s.hostname, RSAKeySize := 2048 },
              Call.Sign csrPEM, Call.X509KeyPair certPEM privPEM] } } := by
    simp [stepGoroutine, ha]
  have hfresh1 : ∀ i, needsRefresh (now i)
      ({ ca := s.ca, certificate := some { addr := w.nextAddr, obj := cert },
         hostname := s.hostname, port := s.port } : Server W) = false := by
    intro i
    simp only [needsRefresh, shouldRefresh, hleaf, Time.Before, Time.Add,
      decide_eq_false_iff_not, not_lt]
    have := hfresh i
    linarith
  have hrest := run_serialFrom_of_fresh env now { addr := w.nextAddr, obj := cert } k
    [Goroutine.done (some { addr := w.nextAddr, obj := cert }, none)]
    ({ ca := s.ca, certificate := some { addr := w.nextAddr, obj := cert },
       hostname := s.hostname, port := s.port } : Server W)
    { backend := b2, nextAddr := w.nextAddr + 1,
      calls := w.calls ++ [Call.GenCSR { Host := s.hostname, RSAKeySize := 2048 },
        Call.Sign csrPEM, Call.X509KeyPair certPEM privPEM] }
    rfl hfresh1
  simp only [List.length_singleton] at hrest
  simp only [run] at hrest
  simp only [serialSchedule, serialFrom, run, List.foldl_cons, hstep1, hstep2, Nat.zero_add]
  rw [hrest]
  rfl

/-- C9 (amended), instantiated: three handshakes, one after another, on a new
server. -/
theorem serial_handshakes_refresh_once_witness :
    (0 : Nat) < 3 ∧
    (New (fixedCA [1, 2, 3]) "istio-ca" 8060).certificate = none ∧
    (∀ i : Nat, (fun _ => (1000 : Time)) i + certExpirationBuffer < 100000000000) ∧
    run (parsingImports 100000000000) (fun _ => 1000) (serialSchedule 3)
        (spawn 3 (New (fixedCA [1, 2, 3]) "istio-ca" 8060) World.initial) =
      { goroutines :=
          List.replicate 3
            (Goroutine.done
              (some { addr := World.initial.nextAddr,
                      obj := { Certificate := [[1, 2, 3]], PrivateKey := [75, 69, 89],
                               Leaf := some { NotBefore := 0, NotAfter := 100000000000 } } },
                none)),
        server :=
          { ca := fixedCA [1, 2, 3],
            certificate :=
              some { addr := World.initial.nextAddr,
                     obj := { Certificate := [[1, 2, 3]], PrivateKey := [75, 69, 89],
                              Leaf := some { NotBefore := 0, NotAfter := 100000000000 } } },
            hostname := "istio-ca", port := 8060 },
        world :=
          { backend := 1, nextAddr := World.initial.nextAddr + 1,
            calls := World.initial.calls ++
              [Call.GenCSR { Host := "istio-ca", RSAKeySize := 2048 }, Call.Sign [67, 83, 82],
                Call.X509KeyPair [1, 2, 3] [75, 69, 89]] } } :=
  ⟨by decide, rfl,
    fun _ => show (1000 : Time) + certExpirationBuffer < 100000000000 from by decide,
    serial_handshakes_refresh_once (parsingImports 100000000000) (fun _ => 1000)
      (New (fixedCA [1, 2, 3]) "istio-ca" 8060) World.initial 3
      [67, 83, 82] [75, 69, 89] [1, 2, 3]
      { Certificate := [[1, 2, 3]], PrivateKey := [75, 69, 89],
        Leaf := some { NotBefore := 0, NotAfter := 100000000000 } }
      { NotBefore := 0, NotAfter := 100000000000 } 0 1
      (by decide) rfl rfl rfl rfl rfl
      (fun _ => show (1000 : Time) + certExpirationBuffer < 100000000000 from by decide)⟩

end Grpc
